import Mathlib

/-!
# Verification of `steam_download_tracker.py`

A shallow embedding of the tracker's core logic, translated function by
function from the Python source:

* `calculate_speed` — the rate estimator (two-sample sliding window);
  Python floats are modelled by `ℚ` (exact rational arithmetic; every
  concrete value used in the theorems below is exactly representable as an
  IEEE double, so the rational model agrees with the float semantics there).
* `get_download_info` — artifact-based status extraction.  The filesystem
  is an explicit environment (`FsEnv`); file bytes are `List Nat`.
* `get_network_stats` — network statistics with its three runtime branches
  (psutil available / ImportError simulation / failure), selected by a
  `NetCase` oracle that also supplies the clock and the random choice.
* `monitor_downloads` — the bounded polling loop, with per-tick
  environments supplied by a `Nat → TickEnv` oracle (KeyboardInterrupt is
  `TickEnv.interrupt`, an exception escaping a pipeline stage is
  `TickEnv.raise`).  The `while check_count < max_checks` loop is embedded
  as structural recursion on the remaining iteration count, which is the
  loop's variant.
-/

/-- A value stored in one of the Python dictionaries assembled by the
tracker (string statuses and names, integer byte counts, rational speeds). -/
inductive Value
  | str (s : String)
  | int (n : Int)
  | rat (q : ℚ)
deriving DecidableEq

/-- The mutable estimator state carried on `self`: `self.last_bytes`
(initialised to `0`) and `self.last_check_time` (initialised to `None`). -/
structure TrackerState where
  last_bytes : Int
  last_check_time : Option ℚ
deriving DecidableEq

/-- Initial state set up in `__init__`: `last_bytes = 0`,
`last_check_time = None`. -/
def initState : TrackerState := ⟨0, none⟩

/-- Python truthiness of `self.last_check_time`: `not self.last_check_time`
is `True` when the stored value is `None` and also when it is `0.0`. -/
def pyFalsyTime : Option ℚ → Bool
  | none => true
  | some t => t == 0

/-- `calculate_speed(self, current_bytes)` from the source.  `now` stands
for the value of `time.time()` during the call.  Returns the speed in
MB/s together with the updated state; the source divides the byte rate by
`1_048_576` before returning it. -/
def calculate_speed (st : TrackerState) (current_bytes : Int) (now : ℚ) :
    ℚ × TrackerState :=
  if st.last_bytes == 0 || pyFalsyTime st.last_check_time then
    (0, ⟨current_bytes, some now⟩)
  else
    let t0 := st.last_check_time.getD 0
    let time_diff := now - t0
    let bytes_diff : ℚ := (current_bytes : ℚ) - (st.last_bytes : ℚ)
    let speed_mbps := if 0 < time_diff then bytes_diff / time_diff / 1048576 else 0
    (speed_mbps, ⟨current_bytes, some now⟩)

/-- Every call to `calculate_speed` unconditionally overwrites the stored
sample with the current observation. -/
theorem calculate_speed_snd (st : TrackerState) (b : Int) (t : ℚ) :
    (calculate_speed st b t).2 = ⟨b, some t⟩ := by
  unfold calculate_speed
  split <;> rfl

/-- C2 counterexample: after observing byte count `2` at time `1`, observing
the smaller byte count `1` at time `2` (a counter regression with strictly
increasing clock) returns a strictly negative rate — the code does not clamp
a negative byte delta to `0`. -/
theorem counter_regression_negative_rate :
    (calculate_speed (calculate_speed ⟨0, none⟩ 2 1).2 1 2).1 < 0 := by
  norm_num [calculate_speed, pyFalsyTime]

/-- C2 (amended): for consecutive observations `observe(b1, t1)` then
`observe(b2, t2)` (so the stored state is `⟨b1, some t1⟩`), a clock anomaly
`t2 ≤ t1` is clamped to `0`; but a counter regression `b2 < b1` with
`t2 > t1` is *not* clamped: when the stored sample is a genuine one
(`b1 ≠ 0`, `t1 ≠ 0`, otherwise the call is treated as a first sample), the
returned rate is strictly negative. -/
theorem clock_clamp_and_regression_sign (b1 : Int) (t1 : ℚ) (b2 : Int) (t2 : ℚ) :
    (t2 ≤ t1 → (calculate_speed ⟨b1, some t1⟩ b2 t2).1 = 0) ∧
    (b1 ≠ 0 → t1 ≠ 0 → b2 < b1 → t1 < t2 →
      (calculate_speed ⟨b1, some t1⟩ b2 t2).1 < 0) := by
  constructor
  · intro hle
    unfold calculate_speed
    split
    · rfl
    · simp only
      rw [if_neg (by simpa using not_lt.mpr (by linarith : t2 - t1 ≤ 0))]
  · intro hb1 ht1 hreg hlt
    unfold calculate_speed
    rw [if_neg (by simp [pyFalsyTime, hb1, ht1])]
    simp only [Option.getD_some]
    rw [if_pos (by linarith : (0 : ℚ) < t2 - t1)]
    have hnum : ((b2 : ℚ) - (b1 : ℚ)) < 0 := by
      have : (b2 : ℚ) < (b1 : ℚ) := by exact_mod_cast hreg
      linarith
    have hden : (0 : ℚ) < t2 - t1 := by linarith
    exact div_neg_of_neg_of_pos (div_neg_of_neg_of_pos hnum hden) (by norm_num)

/-- Witness for `clock_clamp_and_regression_sign`: concrete instances of
both conjuncts, hypotheses discharged at `b1 = 2`, `t1 = 1`, `b2 = 1`. -/
theorem clock_clamp_and_regression_sign_witness :
    (calculate_speed ⟨2, some 1⟩ 1 (1 : ℚ)).1 = 0 ∧
    (calculate_speed ⟨2, some 1⟩ 1 (2 : ℚ)).1 < 0 :=
  ⟨(clock_clamp_and_regression_sign 2 1 1 1).1 (le_refl 1),
   (clock_clamp_and_regression_sign 2 1 1 2).2 (by norm_num) (by norm_num)
     (by norm_num) (by norm_num)⟩

/-- C3 counterexample: two concrete consecutive-observation pairs where the
returned rate is not `(b2 - b1) / (t2 - t1)` bytes per second.  First,
`observe(1, 1)` then `observe(1048577, 2)`: the code returns `1` (it reports
MB/s, dividing the byte rate by `1048576`), not `1048576`.  Second,
`observe(0, 1)` then `observe(1048576, 2)`: a previous byte count of `0` is
treated as "no previous sample", so the code returns `0`, not `1048576`.
All values are exactly representable doubles, so no floating-point
tolerance can bridge the gaps. -/
theorem rate_not_bytes_per_second :
    ((calculate_speed (calculate_speed ⟨0, none⟩ 1 1).2 1048577 2).1 = 1 ∧
      (1 : ℚ) ≠ ((1048577 : ℚ) - 1) / ((2 : ℚ) - 1)) ∧
    ((calculate_speed (calculate_speed ⟨0, none⟩ 0 1).2 1048576 2).1 = 0 ∧
      (0 : ℚ) ≠ ((1048576 : ℚ) - 0) / ((2 : ℚ) - 1)) := by
  refine ⟨⟨?_, by norm_num⟩, ⟨?_, by norm_num⟩⟩ <;>
    norm_num [calculate_speed, pyFalsyTime]

/-- C3 (amended): for consecutive observations `observe(b1, t1)` then
`observe(b2, t2)` with `t2 > t1` and `b2 ≥ b1`, and with the first sample a
genuine one (`b1 ≠ 0` and `t1 ≠ 0`, otherwise the second call is treated as
a first sample and returns `0`), the returned rate equals
`(b2 - b1) / (t2 - t1) / 1048576` — mebibytes per second, not bytes per
second. -/
theorem consecutive_rate_formula (b1 : Int) (t1 : ℚ) (b2 : Int) (t2 : ℚ)
    (hb1 : b1 ≠ 0) (ht1 : t1 ≠ 0) (_hb : b1 ≤ b2) (ht : t1 < t2) :
    (calculate_speed ⟨b1, some t1⟩ b2 t2).1 =
      ((b2 : ℚ) - (b1 : ℚ)) / (t2 - t1) / 1048576 := by
  unfold calculate_speed
  rw [if_neg (by simp [pyFalsyTime, hb1, ht1])]
  simp only [Option.getD_some]
  rw [if_pos (by linarith : (0 : ℚ) < t2 - t1)]

/-- Witness for `consecutive_rate_formula` at `b1 = 1`, `t1 = 1`,
`b2 = 1048577`, `t2 = 2`. -/
theorem consecutive_rate_formula_witness :
    (calculate_speed ⟨1, some 1⟩ 1048577 (2 : ℚ)).1 =
      ((1048577 : ℚ) - 1) / ((2 : ℚ) - 1) / 1048576 :=
  consecutive_rate_formula 1 1 1048577 2 (by norm_num) (by norm_num)
    (by norm_num) (by norm_num)

/-- C10: `calculate_speed` treats a stored previous byte count of `0` as
"no previous sample": whenever `last_bytes = 0` the call returns `0.0` and
only stores the new sample; consequently `observe(0, t1)` followed by
`observe(b2, t2)` returns `0.0` for every `b2` and `t2`. -/
theorem zero_prev_bytes_no_sample (st : TrackerState) (b : Int) (t : ℚ)
    (h : st.last_bytes = 0) (t1 : ℚ) (b2 : Int) (t2 : ℚ) :
    calculate_speed st b t = (0, ⟨b, some t⟩) ∧
    (calculate_speed (calculate_speed ⟨0, none⟩ 0 t1).2 b2 t2).1 = 0 := by
  constructor
  · unfold calculate_speed
    rw [if_pos (by simp [h])]
  · have h1 : (calculate_speed ⟨0, none⟩ 0 t1).2 = ⟨0, some t1⟩ :=
      calculate_speed_snd _ _ _
    rw [h1]
    unfold calculate_speed
    rw [if_pos (by simp)]

/-- Witness for `zero_prev_bytes_no_sample` at the state `⟨0, some 5⟩` with
`b = 7`, `t = 9`, and the chained pair `observe(0, 1); observe(1048576, 2)`. -/
theorem zero_prev_bytes_no_sample_witness :
    calculate_speed ⟨0, some 5⟩ 7 (9 : ℚ) = (0, ⟨7, some 9⟩) ∧
    (calculate_speed (calculate_speed ⟨0, none⟩ 0 1).2 1048576 (2 : ℚ)).1 = 0 :=
  zero_prev_bytes_no_sample ⟨0, some 5⟩ 7 9 rfl 1 1048576 2


/-- Python truthiness of `self.steam_path`: `not self.steam_path` is `True`
when the path is `None` or the empty string. -/
def pyTruthyPath : Option String → Bool
  | none => false
  | some s => !(s == "")

/-- The filesystem environment read by `get_download_info` and
`get_game_name` during one call (the Steam path itself is passed
separately, since it is resolved once by the loop):
`config_exists` — whether `<steam>/config` exists;
`library_vdf` — raw bytes of `<steam>/config/libraryfolders.vdf`, `none`
if the file does not exist;
`downloading_listing` — `os.listdir` of `<steam>/steamapps/downloading`,
`none` if the directory does not exist;
`appcache_exists` / `cache_file_exists` — whether `<steam>/appcache` and
one of its probed cache files exist. -/
structure FsEnv where
  config_exists : Bool
  library_vdf : Option (List Nat)
  downloading_listing : Option (List String)
  appcache_exists : Bool
  cache_file_exists : Bool
deriving DecidableEq

/-- UTF-8 decoding with `errors='ignore'` as used by the source's
`open(..., encoding='utf-8', errors='ignore')`, modelled on inputs made of
ASCII bytes and isolated invalid bytes (for which CPython's decoder emits
one error per byte): valid bytes decode to their character, undecodable
bytes are dropped. -/
def decodeIgnore : List Nat → List Char
  | [] => []
  | b :: bs => if b < 128 then Char.ofNat b :: decodeIgnore bs else decodeIgnore bs

/-- Modelled from the spec: the decoding policy the spec prescribes
("replace undecodable bytes rather than fail the whole read", i.e.
`errors='replace'`), on the same inputs as `decodeIgnore`; undecodable
bytes become U+FFFD.  The source does *not* use this policy; the
definition exists only to compare the spec's words with the code. -/
def decodeReplace : List Nat → List Char
  | [] => []
  | b :: bs => (if b < 128 then Char.ofNat b else Char.ofNat 65533) :: decodeReplace bs

/-- `content.lower()` on the decoded characters (the marker searched for is
pure ASCII, so ASCII lowering is the relevant fragment of `str.lower`). -/
def lowerChars (cs : List Char) : List Char := cs.map Char.toLower

/-- Whether `pat` is a prefix of the second list (used to model Python's
substring operator `in`). -/
def isPrefixChars : List Char → List Char → Bool
  | [], _ => true
  | _ :: _, [] => false
  | a :: as, b :: bs => a == b && isPrefixChars as bs

/-- Python's `pat in s` substring test on character lists. -/
def containsChars (pat : List Char) : List Char → Bool
  | [] => isPrefixChars pat []
  | b :: bs => isPrefixChars pat (b :: bs) || containsChars pat bs

/-- The marker the source searches for in `libraryfolders.vdf`:
`'"downloading"' in content.lower()` — note the quotes are part of it. -/
def downloadingMarker : List Char := "\"downloading\"".toList

/-- The ASCII bytes of a string, for building concrete artifact contents. -/
def asciiBytes (s : String) : List Nat := s.toList.map Char.toNat

/-- The static `popular_games` table from `get_game_name`. -/
def popular_games : List (String × String) :=
  [("730", "Counter-Strike 2"),
   ("570", "Dota 2"),
   ("578080", "PUBG: BATTLEGROUNDS"),
   ("1091500", "Cyberpunk 2077"),
   ("1172470", "Apex Legends"),
   ("271590", "Grand Theft Auto V"),
   ("1245620", "ELDEN RING"),
   ("292030", "The Witcher 3: Wild Hunt"),
   ("1085660", "Destiny 2"),
   ("381210", "Dead by Daylight")]

/-- Association-list lookup, modelling `dict.get` for string-valued dicts. -/
def lookupGame (k : String) : List (String × String) → Option String
  | [] => none
  | (k2, v) :: rest => if k = k2 then some v else lookupGame k rest

/-- `get_game_name(self, app_id)` from the source: if the appcache
directory and one of its probed cache files exist, return the placeholder
name; otherwise consult the static `popular_games` table, falling back to
the "unknown game" placeholder. -/
def get_game_name (fs : FsEnv) (app_id : String) : String :=
  if fs.appcache_exists && fs.cache_file_exists then
    "Игра (AppID: " ++ app_id ++ ")"
  else
    match lookupGame app_id popular_games with
    | some name => name
    | none => "Неизвестная игра (AppID: " ++ app_id ++ ")"

/-- Association-list lookup modelling `dict.get` on the tracker's
`Value`-valued dicts (keys in the dicts built below are unique). -/
def dictLookup (k : String) : List (String × Value) → Option Value
  | [] => none
  | (k2, v) :: rest => if k = k2 then some v else dictLookup k rest

/-- `get_download_info(self)` from the source, as a function of the Steam
path and the filesystem environment.  The Python body is wrapped in a
`try/except` that returns an error dict, but every operation modelled here
is total, so the except branch is unreachable in the model; the function
never raises.  Order of checks follows the source: falsy `steam_path` →
`steam_not_found`; missing config dir → `no_config`; quoted
`"downloading"` marker (case-insensitive) in `libraryfolders.vdf` →
`downloading` with the placeholder game name; otherwise a non-empty
`steamapps/downloading` listing → `downloading` with the first entry's
resolved name; otherwise `no_downloads`. -/
def get_download_info (steam_path : Option String) (fs : FsEnv) :
    List (String × Value) :=
  if !(pyTruthyPath steam_path) then [("status", .str "steam_not_found")]
  else if !fs.config_exists then [("status", .str "no_config")]
  else
    let vdf_match :=
      match fs.library_vdf with
      | some bytes => containsChars downloadingMarker (lowerChars (decodeIgnore bytes))
      | none => false
    if vdf_match then
      [("status", .str "downloading"), ("game", .str "Unknown Game")]
    else
      match fs.downloading_listing with
      | some (g :: _) =>
          [("status", .str "downloading"), ("game", .str (get_game_name fs g)),
           ("app_id", .str g)]
      | _ => [("status", .str "no_downloads")]

/-- Artifact content holding both a quoted `"paused"` and a quoted
`"downloading"` marker. -/
def pausedDownloadingBytes : List Nat := asciiBytes "\"paused\" \"downloading\""

/-- Environment for the paused-plus-downloading scenario: config dir
present, `libraryfolders.vdf` holds both markers, no downloads dir. -/
def fsPausedDownloading : FsEnv :=
  { config_exists := true
    library_vdf := some pausedDownloadingBytes
    downloading_listing := none
    appcache_exists := false
    cache_file_exists := false }

/-- C4 counterexample: on content containing both a `paused` and a
`downloading` marker, `get_download_info` reports `downloading`, not
`paused` — the code never inspects pause markers, so there is no
pause-over-active precedence. -/
theorem paused_marker_ignored :
    dictLookup "status" (get_download_info (some "/steam") fsPausedDownloading) =
      some (Value.str "downloading") ∧
    Value.str "downloading" ≠ Value.str "paused" := by
  constructor
  · rfl
  · decide

/-- C4 (amended): the extractor derives its state from the quoted
`"downloading"` marker alone (case-insensitively); a `paused` substring has
no effect and no Paused state is ever extracted from artifacts, so content
carrying both markers yields `downloading`. -/
theorem downloading_marker_decides_state (steam_path : Option String)
    (fs : FsEnv) (bytes : List Nat)
    (hsp : pyTruthyPath steam_path = true)
    (hc : fs.config_exists = true)
    (hv : fs.library_vdf = some bytes)
    (hm : containsChars downloadingMarker (lowerChars (decodeIgnore bytes)) = true) :
    dictLookup "status" (get_download_info steam_path fs) =
      some (Value.str "downloading") := by
  unfold get_download_info
  rw [hsp, hc, hv]
  simp [hm, dictLookup]

/-- Witness for `downloading_marker_decides_state` at the
paused-plus-downloading environment. -/
theorem downloading_marker_decides_state_witness :
    dictLookup "status" (get_download_info (some "/steam") fsPausedDownloading) =
      some (Value.str "downloading") :=
  downloading_marker_decides_state (some "/steam") fsPausedDownloading
    pausedDownloadingBytes rfl rfl rfl (by decide)

/-- The free-text scenario content from the spec. -/
def templateLineBytes : List Nat := asciiBytes "Downloading app 730 Counter-Strike 2"

/-- Environment for the free-text template scenario: config present, the
artifact holds the template line, no downloads dir. -/
def fsTemplateLine : FsEnv :=
  { config_exists := true
    library_vdf := some templateLineBytes
    downloading_listing := none
    appcache_exists := false
    cache_file_exists := false }

/-- C5 counterexample: on the content `Downloading app 730 Counter-Strike 2`
the code extracts no item label at all (there is no `game` key) and reports
`no_downloads` rather than an active download — the quoted-marker check
`'"downloading"'` does not match unquoted text and no free-text template
heuristic exists in the source. -/
theorem template_line_not_matched :
    dictLookup "game" (get_download_info (some "/steam") fsTemplateLine) = none ∧
    dictLookup "status" (get_download_info (some "/steam") fsTemplateLine) =
      some (Value.str "no_downloads") := by
  constructor <;> rfl

/-- C5 (amended): the source has no free-text template heuristic; the
content `Downloading app 730 Counter-Strike 2` yields status `no_downloads`
with no item label.  The name "Counter-Strike 2" arises only from
`get_game_name` applied to the app id `730` via the static
`popular_games` table (when no appcache file is present). -/
theorem template_line_yields_no_downloads :
    get_download_info (some "/steam") fsTemplateLine =
      [("status", Value.str "no_downloads")] ∧
    get_game_name fsTemplateLine "730" = "Counter-Strike 2" := by
  constructor <;> rfl

/-- Artifact bytes whose quoted `downloading` marker is interrupted by the
undecodable byte `0xFF` right before the closing quote. -/
def brokenMarkerBytes : List Nat :=
  asciiBytes "\"downloading" ++ [255] ++ asciiBytes "\""

/-- Environment whose `libraryfolders.vdf` holds `brokenMarkerBytes`. -/
def fsBrokenMarker : FsEnv :=
  { config_exists := true
    library_vdf := some brokenMarkerBytes
    downloading_listing := none
    appcache_exists := false
    cache_file_exists := false }

/-- C8 counterexample: the source decodes with `errors='ignore'`, so
undecodable bytes are *dropped*, not replaced.  On `brokenMarkerBytes` the
dropped `0xFF` re-joins the quote to the marker and the read yields the
positive status `downloading` — not an Absent/degraded no-data status —
whereas the spec's replace policy leaves U+FFFD in place, the marker does
not match, and the result would be `no_downloads`. -/
theorem undecodable_bytes_dropped_not_replaced :
    decodeIgnore brokenMarkerBytes ≠ decodeReplace brokenMarkerBytes ∧
    dictLookup "status" (get_download_info (some "/steam") fsBrokenMarker) =
      some (Value.str "downloading") ∧
    containsChars downloadingMarker (lowerChars (decodeReplace brokenMarkerBytes)) =
      false := by
  refine ⟨by decide, rfl, by decide⟩

/-- C8 (amended): reading the artifact never raises — the model of
`get_download_info` is total.  A missing config directory yields the
degraded status `no_config`; an existing but empty candidate file matches
no marker and (with no download directory entries) falls through to
`no_downloads`; undecodable bytes are dropped (`errors='ignore'`), not
replaced, and extraction proceeds on the remaining text, which may even
yield a positive status. -/
theorem artifact_read_degrades_gracefully :
    (∀ sp fs, pyTruthyPath sp = true → fs.config_exists = false →
      get_download_info sp fs = [("status", Value.str "no_config")]) ∧
    (∀ sp fs, pyTruthyPath sp = true → fs.config_exists = true →
      fs.library_vdf = some [] →
      (fs.downloading_listing = none ∨ fs.downloading_listing = some []) →
      get_download_info sp fs = [("status", Value.str "no_downloads")]) ∧
    (∀ l r b, 128 ≤ b → decodeIgnore (l ++ b :: r) = decodeIgnore (l ++ r)) := by
  refine ⟨?_, ?_, ?_⟩
  · intro sp fs hsp hc
    unfold get_download_info
    rw [hsp, hc]
    rfl
  · intro sp fs hsp hc hv hd
    unfold get_download_info
    rw [hsp, hc, hv]
    rcases hd with hd | hd <;> rw [hd] <;> rfl
  · intro l r b hb
    induction l with
    | nil => simp [decodeIgnore, Nat.not_lt.mpr hb]
    | cons x xs ih => simp [decodeIgnore, ih]

/-- Witness for `artifact_read_degrades_gracefully`: each conjunct
instantiated at a concrete input. -/
theorem artifact_read_degrades_gracefully_witness :
    get_download_info (some "/steam")
      { config_exists := false, library_vdf := none, downloading_listing := none,
        appcache_exists := false, cache_file_exists := false } =
      [("status", Value.str "no_config")] ∧
    get_download_info (some "/steam")
      { config_exists := true, library_vdf := some [], downloading_listing := none,
        appcache_exists := false, cache_file_exists := false } =
      [("status", Value.str "no_downloads")] ∧
    decodeIgnore ([97] ++ 255 :: [98]) = decodeIgnore ([97] ++ [98]) :=
  ⟨artifact_read_degrades_gracefully.1 (some "/steam") _ rfl rfl,
   artifact_read_degrades_gracefully.2.1 (some "/steam") _ rfl rfl rfl (Or.inl rfl),
   artifact_read_degrades_gracefully.2.2 [97] [98] 255 (by norm_num)⟩

/-- The runtime situation `get_network_stats` finds itself in during one
call: `psutil` available (with the byte counter `psutil.net_io_counters().bytes_recv`,
the clock value, and the index `random.choice` picks), `psutil` missing
(the `ImportError` simulation branch, with the clock value), or any other
exception from the attempted statistics gathering (`failure`). -/
inductive NetCase
  | psutil (bytes_recv : Int) (now : ℚ) (choice : Fin 3)
  | importError (now : ℚ)
  | failure
deriving DecidableEq

/-- The `statuses` list `["downloading", "paused", "completed"]` indexed by
the random choice. -/
def statuses3 : Fin 3 → String
  | 0 => "downloading"
  | 1 => "paused"
  | 2 => "completed"

/-- The `status_cycle` list of the ImportError simulation branch. -/
def status_cycle : List String :=
  ["downloading", "downloading", "downloading", "paused", "completed"]

/-- Python `int(...)` on a float value: truncation toward zero, on the
rational model. -/
def ratTrunc (q : ℚ) : Int := Int.tdiv q.num (q.den : Int)

/-- Python `round(x, 2)`: the model rounds half away from the nearest even
only in that Mathlib's `round` resolves exact ties upward while CPython
rounds them to even; no theorem below depends on a tie. -/
def pyRound2 (q : ℚ) : ℚ := ((round (q * 100) : ℤ) : ℚ) / 100

/-- The dict returned by the `except Exception` arm of
`get_network_stats`. -/
def error_stats : List (String × Value) :=
  [("speed_mbps", .rat 0), ("total_bytes", .int 0), ("status", .str "error")]

/-- An exception the tracker can raise: `ZeroDivisionError`, from
`total_duration // check_interval` in `monitor_downloads` and from
`int(time.time() / check_interval)` in the `ImportError` handler of
`get_network_stats`. -/
inductive PyError
  | zeroDivision
deriving DecidableEq

/-- The text of a propagated exception as Python would render it in the
loop's error log. -/
def pyErrorMsg : PyError → String
  | .zeroDivision => "division by zero"

/-- `get_network_stats(self)` from the source.  In the `psutil` branch the
byte counter is read, the speed computed, and a random status chosen.  In
the `ImportError` branch the counter is simulated as
`last_bytes + int(50_000_000 * (check_interval / 60))`, the speed computed,
and the status taken from `status_cycle` at index
`int(time.time() / check_interval) % 5`; if `check_interval` is zero that
index computation raises `ZeroDivisionError` *inside the
`except ImportError` handler*, and the sibling `except Exception` of the
same `try` does not catch it, so the exception propagates out of the
function — with the estimator state already updated by the preceding
`calculate_speed` call.  The result is therefore the pair of the call's
outcome (return value or propagated exception) and the state at the moment
the call ends.  An exception inside the `try` body itself (`failure`)
yields `error_stats` with the state untouched. -/
def get_network_stats (check_interval : Int) (st : TrackerState) :
    NetCase → Except PyError (List (String × Value)) × TrackerState
  | .psutil bytes_recv now choice =>
      let r := calculate_speed st bytes_recv now
      (.ok [("speed_mbps", .rat (pyRound2 r.1)), ("total_bytes", .int bytes_recv),
        ("status", .str (statuses3 choice))], r.2)
  | .importError now =>
      let current_bytes := st.last_bytes + ratTrunc (50000000 * ((check_interval : ℚ) / 60))
      let r := calculate_speed st current_bytes now
      if check_interval = 0 then (.error .zeroDivision, r.2)
      else
        let idx := (ratTrunc (now / (check_interval : ℚ))).emod 5
        (.ok [("speed_mbps", .rat (pyRound2 r.1)), ("total_bytes", .int current_bytes),
          ("status", .str (status_cycle.getD idx.toNat "downloading"))], r.2)
  | .failure => (.ok error_stats, st)

/-- The Python dict merge `{**a, **b}` as a lookup: a key present in `b`
takes `b`'s value, otherwise `a`'s. -/
def pyMerge (a b : List (String × Value)) (k : String) : Option Value :=
  match dictLookup k b with
  | some v => some v
  | none => dictLookup k a

/-- C9 counterexample: `get_network_stats` does *not* always return a dict
containing `"status"` — with psutil missing and `check_interval = 0` it
raises `ZeroDivisionError` (from `int(time.time() / check_interval)` inside
the `except ImportError` handler, which the sibling `except Exception` does
not catch) instead of returning at all. -/
theorem network_stats_raises_on_zero_interval :
    (get_network_stats 0 initState (NetCase.importError 1)).1 =
      Except.error PyError.zeroDivision := by
  rfl

/-- C9 (amended): except when psutil is missing and `check_interval = 0`
(where `get_network_stats` raises `ZeroDivisionError` rather than
returning), i.e. for every `check_interval ≠ 0` — which holds in every tick
`monitor_downloads` actually executes, a zero interval having already
raised while computing `max_checks` — `get_network_stats` returns a dict
containing the key `"status"`, so the `"status"` of the per-tick merge
`{**download_info, **network_stats}` is always the one produced by
`get_network_stats`; whatever status `get_download_info` derived from the
on-disk artifacts is discarded. -/
theorem network_status_overrides (check_interval : Int) (st : TrackerState)
    (nc : NetCase) (download_info : List (String × Value))
    (hci : check_interval ≠ 0) :
    ∃ net v, (get_network_stats check_interval st nc).1 = Except.ok net ∧
      dictLookup "status" net = some v ∧
      pyMerge download_info net "status" = some v := by
  cases nc with
  | psutil bytes_recv now choice =>
      refine ⟨[("speed_mbps", .rat (pyRound2 (calculate_speed st bytes_recv now).1)),
          ("total_bytes", .int bytes_recv), ("status", .str (statuses3 choice))],
        .str (statuses3 choice), rfl, ?_, ?_⟩
      · simp [dictLookup]
      · simp [pyMerge, dictLookup]
  | importError now =>
      refine ⟨[("speed_mbps", .rat (pyRound2 (calculate_speed st
            (st.last_bytes + ratTrunc (50000000 * ((check_interval : ℚ) / 60))) now).1)),
          ("total_bytes",
            .int (st.last_bytes + ratTrunc (50000000 * ((check_interval : ℚ) / 60)))),
          ("status", .str (status_cycle.getD
            ((ratTrunc (now / (check_interval : ℚ))).emod 5).toNat "downloading"))],
        .str (status_cycle.getD
          ((ratTrunc (now / (check_interval : ℚ))).emod 5).toNat "downloading"),
        ?_, ?_, ?_⟩
      · simp [get_network_stats, hci]
      · simp [dictLookup]
      · simp [pyMerge, dictLookup]
  | failure =>
      refine ⟨error_stats, .str "error", rfl, ?_, ?_⟩
      · simp [error_stats, dictLookup]
      · simp [pyMerge, error_stats, dictLookup]

/-- Witness for `network_status_overrides` at interval `60`, the failure
branch, and an artifact dict whose status would report a download. -/
theorem network_status_overrides_witness :
    ∃ net v, (get_network_stats 60 initState NetCase.failure).1 =
        Except.ok net ∧
      dictLookup "status" net = some v ∧
      pyMerge [("status", Value.str "downloading")] net "status" = some v :=
  network_status_overrides 60 initState NetCase.failure
    [("status", Value.str "downloading")] (by norm_num)

/-- One emitted observation: either the per-tick info pair
(`download_info`, `network_stats`, merged for display via `pyMerge`), or
the error report logged when an exception is caught at the tick boundary. -/
inductive Snapshot
  | normal (download_info network_stats : List (String × Value))
  | error (msg : String)
deriving DecidableEq

/-- What the world does during one tick: the pipeline runs against a
filesystem environment and a network case; or some stage raises an
exception (caught by the loop's `except Exception` arm); or the user
presses Ctrl-C (`KeyboardInterrupt`, the cancellation signal, caught by
the loop's `except KeyboardInterrupt` arm which breaks out).  A tick that
raises may have updated the estimator state partway; the model keeps the
pre-tick state there, and no theorem below depends on that choice. -/
inductive TickEnv
  | run (fs : FsEnv) (nc : NetCase)
  | raise (msg : String)
  | interrupt
deriving DecidableEq

/-- One execution of the tick pipeline (source lines 282–286 plus the
tick-level `except Exception` arm as far as the pipeline is concerned):
`get_download_info`, then `get_network_stats`; if the latter propagates an
exception, the tick-level handler catches it and the tick's output is the
error report, the estimator state keeping whatever the failed call left
behind. -/
def tickSnapshot (check_interval : Int) (steam_path : Option String)
    (fs : FsEnv) (nc : NetCase) (st : TrackerState) : Snapshot × TrackerState :=
  let dl := get_download_info steam_path fs
  let r := get_network_stats check_interval st nc
  match r.1 with
  | .ok net => (.normal dl net, r.2)
  | .error e => (.error (pyErrorMsg e), r.2)

/-- The body of `while check_count < max_checks` from `monitor_downloads`,
embedded as structural recursion on the remaining iteration count
`fuel = max_checks - check_count` (the loop's variant: `check_count`
increases by one on every path through the body, including the exception
arm).  Tick number `check_count + 1` consults the environment oracle. -/
def loopIter (check_interval : Int) (steam_path : Option String) :
    Nat → Nat → (Nat → TickEnv) → TrackerState → List Snapshot
  | 0, _, _, _ => []
  | fuel + 1, check_count, env, st =>
    match env (check_count + 1) with
    | .interrupt => []
    | .raise msg =>
        .error msg :: loopIter check_interval steam_path fuel (check_count + 1) env st
    | .run fs nc =>
        (tickSnapshot check_interval steam_path fs nc st).1 ::
          loopIter check_interval steam_path fuel (check_count + 1) env
            (tickSnapshot check_interval steam_path fs nc st).2

/-- How a run of `monitor_downloads` ends: early return because Steam was
not found, or the loop finishing (normally or via cancellation) with the
emitted snapshots. -/
inductive RunOutcome
  | steamNotFound
  | finished (snapshots : List Snapshot)
deriving DecidableEq

/-- `monitor_downloads(self)` from the source: resolve the Steam path (a
falsy path returns immediately); compute
`max_checks = total_duration // check_interval` — Python floor division,
which raises `ZeroDivisionError` on a zero interval; then run the polling
loop.  `(Int.fdiv total_duration check_interval).toNat` is the number of
iterations of `while check_count < max_checks` from `check_count = 0`:
zero when `max_checks` is negative.  There is no schedule validation. -/
def monitor_downloads (total_duration check_interval : Int)
    (steam : Option String) (env : Nat → TickEnv) (st : TrackerState) :
    Except PyError RunOutcome :=
  if !(pyTruthyPath steam) then .ok .steamNotFound
  else if check_interval = 0 then .error .zeroDivision
  else .ok (.finished (loopIter check_interval steam
      (Int.fdiv total_duration check_interval).toNat 0 env st))

/-- Without a cancellation signal, the loop body runs exactly `fuel`
times, emitting one snapshot per iteration. -/
theorem loopIter_length (check_interval : Int) (steam_path : Option String)
    (fuel : Nat) (env : Nat → TickEnv)
    (h : ∀ n, env n ≠ TickEnv.interrupt) :
    ∀ check_count st,
      (loopIter check_interval steam_path fuel check_count env st).length = fuel := by
  induction fuel with
  | zero => intro check_count st; rfl
  | succ f ih =>
    intro check_count st
    unfold loopIter
    cases henv : env (check_count + 1) with
    | interrupt => exact absurd henv (h _)
    | raise msg => simpa using ih _ _
    | run fs nc => simpa using ih _ _

/-- Without a cancellation signal, the snapshot at position `n` of the
emitted list reports exactly the exception the environment raised at tick
`check_count + 1 + n`, when it raised one. -/
theorem loopIter_raise_snapshot (check_interval : Int) (steam_path : Option String)
    (fuel : Nat) (env : Nat → TickEnv)
    (h : ∀ n, env n ≠ TickEnv.interrupt) :
    ∀ check_count st n msg, n < fuel → env (check_count + 1 + n) = TickEnv.raise msg →
      (loopIter check_interval steam_path fuel check_count env st).get? n =
        some (Snapshot.error msg) := by
  induction fuel with
  | zero => intro _ _ n _ hn _; exact absurd hn (Nat.not_lt_zero n)
  | succ f ih =>
    intro check_count st n msg hn hr
    unfold loopIter
    cases henv : env (check_count + 1) with
    | interrupt => exact absurd henv (h _)
    | raise m =>
        cases n with
        | zero =>
            have : m = msg := by
              have := hr
              rw [Nat.add_zero] at this
              rw [henv] at this
              exact (TickEnv.raise.injEq m msg).mp this
            simp [List.get?, this]
        | succ k =>
            have hr' : env (check_count + 1 + 1 + k) = TickEnv.raise msg := by
              have : check_count + 1 + (k + 1) = check_count + 1 + 1 + k := by omega
              rw [← this]; exact hr
            simpa [List.get?] using ih _ _ k msg (Nat.lt_of_succ_lt_succ hn) hr'
    | run fs nc =>
        cases n with
        | zero =>
            have := hr
            rw [Nat.add_zero] at this
            rw [henv] at this
            exact absurd this (by simp)
        | succ k =>
            have hr' : env (check_count + 1 + 1 + k) = TickEnv.raise msg := by
              have : check_count + 1 + (k + 1) = check_count + 1 + 1 + k := by omega
              rw [← this]; exact hr
            simpa [List.get?] using ih _ _ k msg (Nat.lt_of_succ_lt_succ hn) hr'

/-- An environment with nothing on disk (every probe fails). -/
def fsAbsent : FsEnv :=
  { config_exists := false
    library_vdf := none
    downloading_listing := none
    appcache_exists := false
    cache_file_exists := false }

/-- A tick environment with no cancellation and no exceptions. -/
def envRun : Nat → TickEnv := fun _ => TickEnv.run fsAbsent NetCase.failure

/-- A tick environment whose first tick raises and which is otherwise
quiet. -/
def envRaise1 : Nat → TickEnv :=
  fun n => if n = 1 then TickEnv.raise "boom" else TickEnv.run fsAbsent NetCase.failure

/-- C1: for a valid schedule (`check_interval > 0`, `total_duration ≥ 0`),
a resolved Steam path and no cancellation, `monitor_downloads` runs the
loop to completion, emitting exactly
`max_checks = total_duration // check_interval` (floor division,
non-negative here) snapshots — one non-terminal snapshot per tick, the
terminal summary following after the loop. -/
theorem valid_schedule_tick_count (total_duration check_interval : Int)
    (p : String) (env : Nat → TickEnv) (st : TrackerState)
    (hi : 0 < check_interval) (hd : 0 ≤ total_duration) (hp : p ≠ "")
    (hnc : ∀ n, env n ≠ TickEnv.interrupt) :
    ∃ snaps, monitor_downloads total_duration check_interval (some p) env st =
        Except.ok (RunOutcome.finished snaps) ∧
      0 ≤ Int.fdiv total_duration check_interval ∧
      (snaps.length : Int) = Int.fdiv total_duration check_interval := by
  have hfd : 0 ≤ Int.fdiv total_duration check_interval := Int.fdiv_nonneg hd hi.le
  refine ⟨loopIter check_interval (some p)
      (Int.fdiv total_duration check_interval).toNat 0 env st, ?_, hfd, ?_⟩
  · unfold monitor_downloads
    simp [pyTruthyPath, hp, hi.ne']
  · rw [loopIter_length _ _ _ _ hnc]
    exact Int.toNat_of_nonneg hfd

/-- Witness for `valid_schedule_tick_count` at the spec's own scenario:
interval 60, duration 300. -/
theorem valid_schedule_tick_count_witness :
    ∃ snaps, monitor_downloads 300 60 (some "/steam") envRun initState =
        Except.ok (RunOutcome.finished snaps) ∧
      0 ≤ Int.fdiv 300 60 ∧
      (snaps.length : Int) = Int.fdiv 300 60 :=
  valid_schedule_tick_count 300 60 "/steam" envRun initState (by norm_num)
    (by norm_num) (by decide) (fun n => by simp [envRun])

/-- C6 counterexample: with `check_interval = 0` the engine does divide by
zero (`total_duration // check_interval` raises `ZeroDivisionError`), and
with `check_interval = -60` (and duration `300`) it silently completes
with zero ticks — in neither case does it fail fast with a configuration
error. -/
theorem no_validation_counterexample :
    monitor_downloads 300 0 (some "/steam") envRun initState =
      Except.error PyError.zeroDivision ∧
    monitor_downloads 300 (-60) (some "/steam") envRun initState =
      Except.ok (RunOutcome.finished []) := by
  constructor <;> rfl

/-- C6 (amended): the engine performs no schedule validation.  A zero
interval raises `ZeroDivisionError` while computing `max_checks` (before
any tick executes); a negative interval with non-negative duration, or a
negative duration with positive interval, makes `max_checks ≤ 0` and the
loop silently completes with zero ticks. -/
theorem no_schedule_validation (total_duration check_interval : Int)
    (env : Nat → TickEnv) (st : TrackerState) :
    (monitor_downloads total_duration 0 (some "/steam") env st =
      Except.error PyError.zeroDivision) ∧
    (check_interval < 0 → 0 ≤ total_duration →
      monitor_downloads total_duration check_interval (some "/steam") env st =
        Except.ok (RunOutcome.finished [])) ∧
    (0 < check_interval → total_duration < 0 →
      monitor_downloads total_duration check_interval (some "/steam") env st =
        Except.ok (RunOutcome.finished [])) := by
  refine ⟨rfl, ?_, ?_⟩
  · intro hci hd
    have h0 : (Int.fdiv total_duration check_interval).toNat = 0 :=
      Int.toNat_eq_zero.mpr (Int.fdiv_nonpos hd hci.le)
    unfold monitor_downloads
    simp [pyTruthyPath, hci.ne, h0, loopIter]
  · intro hci hd
    have h0 : (Int.fdiv total_duration check_interval).toNat = 0 :=
      Int.toNat_eq_zero.mpr (Int.fdiv_neg' hd hci).le
    unfold monitor_downloads
    simp [pyTruthyPath, hci.ne', h0, loopIter]

/-- Witness for `no_schedule_validation` at intervals `0` and `-60` and at
duration `-120` with interval `60`. -/
theorem no_schedule_validation_witness :
    monitor_downloads 300 0 (some "/steam") envRaise1 initState =
      Except.error PyError.zeroDivision ∧
    monitor_downloads 300 (-60) (some "/steam") envRaise1 initState =
      Except.ok (RunOutcome.finished []) ∧
    monitor_downloads (-120) 60 (some "/steam") envRaise1 initState =
      Except.ok (RunOutcome.finished []) :=
  ⟨(no_schedule_validation 300 (-60) envRaise1 initState).1,
   (no_schedule_validation 300 (-60) envRaise1 initState).2.1 (by norm_num)
     (by norm_num),
   (no_schedule_validation (-120) 60 envRaise1 initState).2.2 (by norm_num)
     (by norm_num)⟩

/-- C7: with a valid schedule, a resolved path and no cancellation, a tick
whose pipeline raises never terminates the session: the loop still emits
exactly `max_checks` snapshots, and each raising tick contributes an
Error snapshot carrying the caught exception at its position. -/
theorem tick_error_isolation (total_duration check_interval : Int)
    (p : String) (env : Nat → TickEnv) (st : TrackerState)
    (hi : 0 < check_interval) (hd : 0 ≤ total_duration) (hp : p ≠ "")
    (hnc : ∀ n, env n ≠ TickEnv.interrupt) :
    ∃ snaps, monitor_downloads total_duration check_interval (some p) env st =
        Except.ok (RunOutcome.finished snaps) ∧
      (snaps.length : Int) = Int.fdiv total_duration check_interval ∧
      ∀ n msg, env (n + 1) = TickEnv.raise msg → n < snaps.length →
        snaps.get? n = some (Snapshot.error msg) := by
  have hfd : 0 ≤ Int.fdiv total_duration check_interval := Int.fdiv_nonneg hd hi.le
  refine ⟨loopIter check_interval (some p)
      (Int.fdiv total_duration check_interval).toNat 0 env st, ?_, ?_, ?_⟩
  · unfold monitor_downloads
    simp [pyTruthyPath, hp, hi.ne']
  · rw [loopIter_length _ _ _ _ hnc]
    exact Int.toNat_of_nonneg hfd
  · intro n msg hr hn
    rw [loopIter_length _ _ _ _ hnc] at hn
    refine loopIter_raise_snapshot _ _ _ _ hnc 0 st n msg hn ?_
    have : 0 + 1 + n = n + 1 := by omega
    rw [this]
    exact hr

/-- Witness for `tick_error_isolation`: a two-tick run whose first tick
raises; the first emitted snapshot is the Error snapshot and the run still
finishes with two snapshots. -/
theorem tick_error_isolation_witness :
    ∃ snaps, monitor_downloads 120 60 (some "/steam") envRaise1 initState =
        Except.ok (RunOutcome.finished snaps) ∧
      (snaps.length : Int) = Int.fdiv 120 60 ∧
      ∀ n msg, envRaise1 (n + 1) = TickEnv.raise msg → n < snaps.length →
        snaps.get? n = some (Snapshot.error msg) :=
  tick_error_isolation 120 60 "/steam" envRaise1 initState (by norm_num)
    (by norm_num) (by decide)
    (fun n => by unfold envRaise1; split <;> simp)
